import Mathlib

/-
Verification of the display serial-protocol engine (package display).
Bytes are modelled as natural numbers; Go byte arithmetic wraps, which is
made explicit with a modulus of 256 where the source relies on wrapping.
Channel and serial effects are modelled by explicit state passing and by
oracle functions describing what the device sends back.
-/

namespace Display

/-- Error taxonomy of the package: ErrClosed, ErrDisplayNotWorking,
ErrMsgSizeMismatch, plus a constructor standing for any propagated
transport (serial) error. -/
inductive DisplayErr
  | errClosed
  | errDisplayNotWorking
  | errSizeMismatch
  | transport
deriving DecidableEq

/-- checksum from asustor.go: iterates over the bytes accumulating into a
Go byte, which wraps modulo 256 on every addition. -/
def checksum (b : List Nat) : Nat :=
  b.foldl (fun s bb => (s + bb) % 256) 0

/-- makemsg from asustor.go: copies the command bytes and appends the
checksum byte of the copied data. -/
def makemsg (msg : List Nat) : List Nat :=
  msg ++ [checksum msg]

/-- Space character appended by strings.Repeat when padding text. -/
def spaceByte : Nat := 32

/-- prepareTxt from generic.go: text longer than 16 bytes is cut, text
shorter than 16 bytes is right-padded with spaces. -/
def prepareTxt (txt : List Nat) : List Nat :=
  if txt.length > 16 then txt.take 16
  else if txt.length < 16 then txt ++ List.replicate (16 - txt.length) spaceByte
  else txt

/-- strToBytes from asustor.go: truncates then pads the text inline and
prepends the 5-byte header; byte(line) is the Go int-to-byte conversion,
the value modulo 256. -/
def strToBytes (line : Int) (text : List Nat) : List Nat :=
  let t1 := if text.length > 16 then text.take 16 else text
  let t2 := if t1.length < 16 then t1 ++ List.replicate (16 - t1.length) spaceByte else t1
  [240, 0x12, 0x27, (line % 256).toNat, 0] ++ t2

/-- createMsg from the mutex-guarded asustor variant: header plus payload. -/
def createMsg (line : Int) (text : List Nat) : List Nat :=
  [240, 0x12, 0x27, (line % 256).toNat, 0] ++ text

/-- strToBytes of the mutex-guarded asustor variant, built on prepareTxt. -/
def strToBytesM (line : Int) (text : List Nat) : List Nat :=
  createMsg line (prepareTxt text)

lemma checksum_foldl (b : List Nat) :
    ∀ s : Nat, b.foldl (fun s bb => (s + bb) % 256) (s % 256) = (s + b.sum) % 256 := by
  induction b with
  | nil => intro s; simp
  | cons x xs ih =>
    intro s
    have h1 : (s % 256 + x) % 256 = (s + x) % 256 := by omega
    simp only [List.foldl_cons, h1, ih (s + x), List.sum_cons]
    ring_nf

lemma checksum_eq_sum (b : List Nat) : checksum b = b.sum % 256 := by
  have := checksum_foldl b 0
  simpa [checksum] using this

lemma prepareTxt_length (txt : List Nat) : (prepareTxt txt).length = 16 := by
  unfold prepareTxt
  rcases lt_trichotomy txt.length 16 with h | h | h
  · simp [h, Nat.not_lt.mpr (Nat.le_of_lt h)]
    omega
  · simp [h]
  · simp [h, Nat.not_lt.mpr (Nat.le_of_lt h)]
    omega

lemma prepareTxt_idem (txt : List Nat) : prepareTxt (prepareTxt txt) = prepareTxt txt := by
  have h := prepareTxt_length txt
  set p := prepareTxt txt with hp
  show prepareTxt p = p
  unfold prepareTxt
  simp [h]

/-- C2: the encoded outbound frame is the command bytes S followed by one
trailing checksum byte equal to the sum of the bytes of S modulo 256, and
dropping the trailing byte of the encoded frame recovers S. -/
theorem c2_checksum_roundtrip (S : List Nat) :
    makemsg S = S ++ [S.sum % 256] ∧
    (makemsg S).dropLast = S ∧
    (makemsg S).length = S.length + 1 := by
  refine ⟨?_, ?_, ?_⟩
  · simp [makemsg, checksum_eq_sum]
  · simp [makemsg]
  · simp [makemsg]

/-- C3: the text payload embedded in a write frame is always exactly 16
bytes, equal to the first 16 bytes of the input when it is longer and to
the input right-padded with spaces otherwise; normalization is idempotent,
and both variants embed the same normalized payload after the 5-byte
header. -/
theorem c3_text_normalization (line : Int) (txt : List Nat) :
    ((strToBytes line txt).drop 5).length = 16 ∧
    (strToBytes line txt).drop 5 = prepareTxt txt ∧
    (strToBytesM line txt).drop 5 = prepareTxt txt ∧
    prepareTxt txt =
      (if txt.length > 16 then txt.take 16
       else txt ++ List.replicate (16 - txt.length) spaceByte) ∧
    prepareTxt (prepareTxt txt) = prepareTxt txt := by
  have hdrop : (strToBytes line txt).drop 5 = prepareTxt txt := by
    unfold strToBytes prepareTxt
    rcases lt_trichotomy txt.length 16 with h | h | h
    · simp [h, Nat.not_lt.mpr (Nat.le_of_lt h)]
    · simp [h]
    · have hlen : (txt.take 16).length = 16 := by
        simp [Nat.le_of_lt h]
      simp [h, Nat.not_lt.mpr (Nat.le_of_lt h), hlen]
  have hif : prepareTxt txt =
      (if txt.length > 16 then txt.take 16
       else txt ++ List.replicate (16 - txt.length) spaceByte) := by
    unfold prepareTxt
    rcases lt_trichotomy txt.length 16 with h | h | h
    · simp [h, Nat.not_lt.mpr (Nat.le_of_lt h)]
    · simp [h]
    · simp [h, Nat.not_lt.mpr (Nat.le_of_lt h)]
  refine ⟨?_, hdrop, ?_, hif, prepareTxt_idem txt⟩
  · rw [hdrop]; exact prepareTxt_length txt
  · simp [strToBytesM, createMsg]

/-- Expected successful write acknowledgment of asustor.go, cmdMsgSentCheck,
built as cmdRdy with 39, 0, 25 appended; identical to replyMsgSentCheck of
the mutex-guarded variant. -/
def cmdMsgSentCheck : List Nat := [241, 1, 39, 0, 25]

/-- isMsgSent of asustor.go: when the session is open it receives one frame
from the ack channel and compares it byte for byte with cmdMsgSentCheck;
when the session is not open it immediately reports failure. The received
frame is passed as an option since a closed session performs no receive. -/
def isMsgSentS (openNow : Bool) (recv : Option (List Nat)) : Bool :=
  if openNow then
    match recv with
    | some res => res == cmdMsgSentCheck
    | none => false
  else false

/-- Outcome of one Write call of the simple variant: the returned error, if
any, and how many frame transmissions (flush calls) were performed. -/
structure SimpleWriteOut where
  res : Option DisplayErr
  attempts : Nat
deriving DecidableEq

/-- Write of asustor.go: refuses a closed session, flushes the frame once,
then succeeds or fails on a single acknowledgment comparison with no retry;
openAtEntry and openAtAck are the open flag as observed at the entry check
and inside isMsgSent. -/
def simpleWrite (openAtEntry flushOk openAtAck : Bool)
    (recv : Option (List Nat)) : SimpleWriteOut :=
  if openAtEntry = false then ⟨some .errClosed, 0⟩
  else if flushOk = false then ⟨some .transport, 1⟩
  else if isMsgSentS openAtAck recv then ⟨none, 1⟩
  else ⟨some .errDisplayNotWorking, 1⟩

/-- write of the mutex-guarded asustor variant. The oracles give, for the
k-th attempt, whether the open flag still holds at entry, whether the flush
succeeds, and whether responseEqual finds a matching acknowledgment.
Returns the error (none on success), the final value of the retry field
(a Go byte, so the increment wraps modulo 256), and the number of flush
attempts performed. The source recurses while the ack check fails and the
retry field has not passed 10, incrementing it; success resets it to 0. -/
def writeGo (openF flushF acks : Nat → Bool) : Nat → Nat → Option DisplayErr × Nat × Nat
  | k, retry =>
    if openF k = false then (some .errClosed, retry, 0)
    else if flushF k = false then (some .transport, retry, 1)
    else if acks k then (none, 0, 1)
    else if retry > 10 then (some .errDisplayNotWorking, retry, 1)
    else
      let r := writeGo openF flushF acks (k + 1) ((retry + 1) % 256)
      (r.1, r.2.1, r.2.2 + 1)
termination_by _ retry => 11 - retry
decreasing_by
  rename_i hr
  simp only [Nat.not_lt] at *
  omega

lemma writeGo_attempts_le (openF flushF acks : Nat → Bool) (k r : Nat) :
    (writeGo openF flushF acks k r).2.2 ≤ 12 - min r 11 := by
  induction k, r using writeGo.induct openF flushF acks with
  | case1 k r h => rw [writeGo.eq_def]; simp [h]
  | case2 k r h1 h2 => rw [writeGo.eq_def]; simp [h1, h2]; omega
  | case3 k r h1 h2 h3 => rw [writeGo.eq_def]; simp [h1, h2, h3]; omega
  | case4 k r h1 h2 h3 h4 => rw [writeGo.eq_def]; simp [h1, h2, h3, h4]; omega
  | case5 k r h1 h2 h3 h4 ih =>
    have hm : (r + 1) % 256 = r + 1 := by omega
    rw [writeGo.eq_def]
    simp [h1, h2, h3, h4]
    rw [hm] at ih ⊢
    omega

lemma writeGo_retryZero (acks : Nat → Bool) (k r : Nat)
    (h : (writeGo (fun _ => true) (fun _ => true) acks k r).2.1 = 0) :
    (writeGo (fun _ => true) (fun _ => true) acks k r).1 = none := by
  induction k, r using writeGo.induct (fun _ => true) (fun _ => true) acks with
  | case1 k r h1 => simp at h1
  | case2 k r h1 h2 => simp at h2
  | case3 k r h1 h2 h3 => rw [writeGo.eq_def]; simp [h3]
  | case4 k r h1 h2 h3 h4 =>
    rw [writeGo.eq_def] at h ⊢
    simp [h3, h4] at h ⊢
    omega
  | case5 k r h1 h2 h3 h4 ih =>
    rw [writeGo.eq_def] at h ⊢
    simp only [h3, h4] at h ⊢
    simp at h ⊢
    exact ih h

/-- C1 counterexample: with every acknowledgment check failing on an open
session, a Write on the mutex-guarded variant starting from a fresh retry
counter performs 12 flush attempts before returning ErrDisplayNotWorking,
not 10, and a Write starting from an exhausted counter performs a single
attempt; so no fixed bound of 10 attempts is observed and later calls
return after fewer attempts. -/
theorem c1_counterexample :
    writeGo (fun _ => true) (fun _ => true) (fun _ => false) 0 0 =
      (some DisplayErr.errDisplayNotWorking, 11, 12) ∧
    writeGo (fun _ => true) (fun _ => true) (fun _ => false) 0 11 =
      (some DisplayErr.errDisplayNotWorking, 11, 1) ∧
    (12 : Nat) ≠ 10 ∧ (1 : Nat) ≠ 10 :=
  ⟨by simp [writeGo], by simp [writeGo], by decide, by decide⟩

/-- C1 amended: retrying is bounded, never indefinite. With every ack
check failing, the mutex-guarded write starting from retry counter 0
returns ErrDisplayNotWorking after exactly 12 flush attempts; for any
oracles and any starting counter at most 12 attempts are performed; and
the simple variant performs exactly one attempt with no retry before
returning ErrDisplayNotWorking. -/
theorem c1_retry_bound :
    writeGo (fun _ => true) (fun _ => true) (fun _ => false) 0 0 =
      (some DisplayErr.errDisplayNotWorking, 11, 12) ∧
    (∀ openF flushF acks : Nat → Bool, ∀ k r : Nat,
      (writeGo openF flushF acks k r).2.2 ≤ 12) ∧
    simpleWrite true true true (some [0, 0, 0, 0, 0]) =
      ⟨some DisplayErr.errDisplayNotWorking, 1⟩ := by
  refine ⟨by simp [writeGo], ?_, by decide⟩
  intro openF flushF acks k r
  have := writeGo_attempts_le openF flushF acks k r
  omega

/-- C10: the retry counter of the mutex-guarded variant is reset to zero
only by a successful acknowledgment; a fresh exhausted Write leaves the
counter at 11, above the bound, and every later Write on a counter above
10 whose ack check fails returns ErrDisplayNotWorking after exactly one
attempt with the counter unchanged. -/
theorem c10_retry_persistence (r : Nat) (h : 10 < r) :
    writeGo (fun _ => true) (fun _ => true) (fun _ => false) 0 r =
      (some DisplayErr.errDisplayNotWorking, r, 1) ∧
    (writeGo (fun _ => true) (fun _ => true) (fun _ => false) 0 0).2.1 = 11 ∧
    (∀ acks : Nat → Bool, ∀ k r0 : Nat,
      (writeGo (fun _ => true) (fun _ => true) acks k r0).2.1 = 0 →
      (writeGo (fun _ => true) (fun _ => true) acks k r0).1 = none) := by
  refine ⟨?_, by simp [writeGo], fun acks k r0 => writeGo_retryZero acks k r0⟩
  rw [writeGo.eq_def]
  simp [h]

/-- C10 witness: the statement instantiated at counter value 11. -/
theorem c10_retry_persistence_witness :
    10 < 11 ∧
    (writeGo (fun _ => true) (fun _ => true) (fun _ => false) 0 11 =
      (some DisplayErr.errDisplayNotWorking, 11, 1) ∧
    (writeGo (fun _ => true) (fun _ => true) (fun _ => false) 0 0).2.1 = 11 ∧
    (∀ acks : Nat → Bool, ∀ k r0 : Nat,
      (writeGo (fun _ => true) (fun _ => true) acks k r0).2.1 = 0 →
      (writeGo (fun _ => true) (fun _ => true) acks k r0).1 = none)) :=
  ⟨by decide, c10_retry_persistence 11 (by decide)⟩

/-- Button frame marker of the asustor variants: cmdByte, 1, 128. -/
def cmdBtn : List Nat := [240, 1, 128]

/-- Acknowledgment pattern replyOkayCheck1 of the mutex-guarded variant. -/
def replyOkayCheck1 : List Nat := [241, 1, 17, 0, 3]

/-- Acknowledgment pattern replyOkayCheck2 of the mutex-guarded variant. -/
def replyOkayCheck2 : List Nat := [241, 1, 17, 4, 7]

/-- Acknowledgment pattern replyOkayCheck3 of the mutex-guarded variant. -/
def replyOkayCheck3 : List Nat := [241, 1, 39, 4, 29]

/-- Acknowledgment pattern replyMsgSentCheck of the mutex-guarded variant,
byte for byte the same sequence as cmdMsgSentCheck of asustor.go. -/
def replyMsgSentCheck : List Nat := [241, 1, 39, 0, 25]

/-- All acknowledgment patterns any responseEqual call compares against. -/
def ackPatterns : List (List Nat) :=
  [replyOkayCheck1, replyOkayCheck2, replyOkayCheck3, replyMsgSentCheck]

/-- Destination queue chosen by the read loop for a completed frame. -/
inductive Route
  | btn
  | ack
deriving DecidableEq

/-- Routing decision of read in asustor.go and of pass in the mutex-guarded
variant: a frame whose first bytes match cmdBtn goes to the button channel,
every other frame goes to the ack channel. No other test is applied. -/
def classifyFrame (frame : List Nat) : Route :=
  if frame.take 3 = cmdBtn then .btn else .ack

/-- A frame carries a valid checksum when its trailing byte equals the
checksum of all preceding bytes. -/
def validChecksum (frame : List Nat) : Prop :=
  frame.getLast? = some (checksum frame.dropLast)

instance (frame : List Nat) : Decidable (validChecksum frame) := by
  unfold validChecksum
  infer_instance

/-- The comparison loop of responseEqual: the received frame is compared
byte for byte against each expected pattern. -/
def responseMatches (checks : List (List Nat)) (res : List Nat) : Bool :=
  checks.any (fun c => res == c)

/-- Listen of the mutex-guarded asustor variant: each received frame is
paired with the open flag observed right after the receive; when the flag
is down the loop returns without invoking the callback, otherwise the
callback is invoked with the fourth byte of the frame and released always
true, and a false return stops the loop. The returned list is the sequence
of callback invocations. -/
def asustorListen (cb : Nat → Bool → Bool) : List (List Nat × Bool) → List (Nat × Bool)
  | [] => []
  | (res, openNow) :: rest =>
    if openNow = false then []
    else if cb (res.getD 3 0) true then (res.getD 3 0, true) :: asustorListen cb rest
    else [(res.getD 3 0, true)]

lemma ackPatterns_checksum_valid : ∀ c ∈ ackPatterns, validChecksum c := by decide

/-- C6 counterexample: the frame 240 1 128 5 99 has an invalid trailing
byte, the checksum of its first four bytes being 118, yet the read loop
routes it to the button queue and Listen invokes the callback on it as a
button event, so an invalid frame is delivered as a success. -/
theorem c6_counterexample :
    ¬ validChecksum [240, 1, 128, 5, 99] ∧
    checksum [240, 1, 128, 5] = 118 ∧
    classifyFrame [240, 1, 128, 5, 99] = Route.btn ∧
    asustorListen (fun _ _ => true) [([240, 1, 128, 5, 99], true)] = [(5, true)] := by
  decide

/-- C6 amended: inbound frames are classified by prefix only, so the
routing decision never depends on the trailing checksum byte; an inbound
frame with an invalid checksum is still routed. What does hold is that
such a frame is never accepted as a successful acknowledgment, because
every expected acknowledgment pattern carries a valid checksum and the
acceptance test is byte-for-byte equality. -/
theorem c6_checksum_not_verified (f : List Nat) (a b : Nat)
    (hlen : 3 ≤ f.length) (hcs : ¬ validChecksum (f ++ [a])) :
    classifyFrame (f ++ [a]) = classifyFrame (f ++ [b]) ∧
    responseMatches ackPatterns (f ++ [a]) = false := by
  constructor
  · unfold classifyFrame
    rw [List.take_append_of_le_length hlen, List.take_append_of_le_length hlen]
  · cases hM : responseMatches ackPatterns (f ++ [a]) with
    | false => rfl
    | true =>
      exfalso
      rcases List.any_eq_true.mp hM with ⟨c, hc, hbeq⟩
      have hEq : f ++ [a] = c := by
        exact eq_of_beq hbeq
      exact hcs (hEq ▸ ackPatterns_checksum_valid c hc)

/-- C6 amended witness: instantiated at a concrete short reply frame with
a corrupted trailing byte. -/
theorem c6_checksum_not_verified_witness :
    (3 ≤ ([241, 1, 17] : List Nat).length ∧
      ¬ validChecksum ([241, 1, 17] ++ [5])) ∧
    (classifyFrame ([241, 1, 17] ++ [5]) = classifyFrame ([241, 1, 17] ++ [3]) ∧
      responseMatches ackPatterns ([241, 1, 17] ++ [5]) = false) :=
  ⟨⟨by decide, by decide⟩,
    c6_checksum_not_verified [241, 1, 17] 5 3 (by decide) (by decide)⟩

/-- C9: every callback invocation made by the asustor Listen loop reports
released equal true and a button id equal to the fourth byte of some
received raw frame; the callback is never invoked with released false. -/
theorem c9_release_only (cb : Nat → Bool → Bool) (inputs : List (List Nat × Bool))
    (ev : Nat × Bool) (h : ev ∈ asustorListen cb inputs) :
    ev.2 = true ∧ ∃ fr ∈ inputs, ev.1 = fr.1.getD 3 0 := by
  induction inputs with
  | nil => simp [asustorListen] at h
  | cons x rest ih =>
    obtain ⟨res, openNow⟩ := x
    rw [asustorListen] at h
    by_cases ho : openNow = false
    · rw [if_pos ho] at h
      simp at h
    · rw [if_neg ho] at h
      by_cases hcb : cb (res.getD 3 0) true = true
      · rw [if_pos hcb] at h
        rcases List.mem_cons.mp h with hHead | hTail
        · subst hHead
          exact ⟨rfl, ⟨(res, openNow), List.mem_cons_self _ _, rfl⟩⟩
        · rcases ih hTail with ⟨h2, fr, hfr, hid⟩
          exact ⟨h2, fr, List.mem_cons_of_mem _ hfr, hid⟩
      · rw [if_neg hcb] at h
        rcases List.mem_singleton.mp h with hHead
        subst hHead
        exact ⟨rfl, ⟨(res, openNow), List.mem_cons_self _ _, rfl⟩⟩

/-- C9 witness: instantiated on one concrete button frame. -/
theorem c9_release_only_witness :
    (7, true) ∈ asustorListen (fun _ _ => true) [([240, 1, 128, 7, 120], true)] ∧
    ((7, true).2 = true ∧
      ∃ fr ∈ [(([240, 1, 128, 7, 120] : List Nat), true)], (7, true).1 = fr.1.getD 3 0) :=
  ⟨by decide, c9_release_only (fun _ _ => true) [([240, 1, 128, 7, 120], true)] (7, true) (by decide)⟩

/-- Button frame marker of the qnap variant: 83, 5, 0. -/
def qnapCmdBtn : List Nat := [83, 5, 0]

/-- Raw qnap frame reporting that the held button was released. -/
def qnapReleased : List Nat := qnapCmdBtn ++ [0]

/-- Raw qnap frame reporting the up button pressed. -/
def qnapUpPressed : List Nat := qnapCmdBtn ++ [1]

/-- Raw qnap frame reporting the down button pressed. -/
def qnapDownPressed : List Nat := qnapCmdBtn ++ [2]

/-- Raw qnap frame reporting both buttons pressed. -/
def qnapBothPressed : List Nat := qnapCmdBtn ++ [3]

/-- remove from generic.go: swaps the chosen element with the last one and
truncates; the old values at both positions are read before writing. -/
def remove (s : List Nat) (i : Nat) : List Nat :=
  ((s.set (s.length - 1) (s.getD i 0)).set i (s.getLastD 0)).dropLast

/-- ensureOrder from generic.go: a frame already starting with the button
marker is kept; otherwise each marker byte is looked up in the frame,
placed at its position and removed, and a final leftover byte becomes the
payload byte. -/
def ensureOrder (res : List Nat) : List Nat :=
  if res.take 3 = qnapCmdBtn then res
  else
    let step := fun (st : List Nat × List Nat) (ib : Nat × Nat) =>
      match st.1.findIdx? (fun r => r == ib.2) with
      | some c => (remove st.1 c, st.2.set ib.1 ib.2)
      | none => st
    let fin := qnapCmdBtn.enum.foldl step (res, [0, 0, 0, 0])
    if fin.1.length > 0 then fin.2.set 3 (fin.1.getD 0 0) else fin.2

/-- Listen of the qnap variant: carries the lastBtn state, reorders each
raw frame through ensureOrder, reports a release with the remembered
identifier, suppresses up or down frames while lastBtn is 3, and stops
when the callback returns false. The result is the list of callback
invocations as pairs of button id and released flag. -/
def qnapListen (cb : Nat → Bool → Bool) : Nat → List (List Nat) → List (Nat × Bool)
  | _, [] => []
  | lastBtn, res :: rest =>
    let r := ensureOrder res
    if r = qnapReleased then
      (lastBtn, true) :: (if cb lastBtn true then qnapListen cb 0 rest else [])
    else if r = qnapUpPressed then
      (if lastBtn = 3 then qnapListen cb lastBtn rest
       else (1, false) :: (if cb 1 false then qnapListen cb 1 rest else []))
    else if r = qnapDownPressed then
      (if lastBtn = 3 then qnapListen cb lastBtn rest
       else (2, false) :: (if cb 2 false then qnapListen cb 2 rest else []))
    else if r = qnapBothPressed then
      (3, false) :: (if cb 3 false then qnapListen cb 3 rest else [])
    else qnapListen cb lastBtn rest

/-- C4: on the raw sequence up-pressed, both-pressed, down-pressed,
released, the qnap interpreter invokes the callback exactly with press of
up, press of both, and release attributed to both; the spurious
down-pressed frame is suppressed and the release is not attributed to
down. -/
theorem c4_debounce (cb : Nat → Bool → Bool) (h : ∀ b r, cb b r = true) :
    qnapListen cb 0 [qnapUpPressed, qnapBothPressed, qnapDownPressed, qnapReleased] =
      [(1, false), (3, false), (3, true)] := by
  have h1 := h 1 false
  have h3 := h 3 false
  have h3t := h 3 true
  simp only [qnapListen, h1, h3, h3t]
  norm_num [ensureOrder, qnapReleased, qnapUpPressed, qnapDownPressed, qnapBothPressed,
    qnapCmdBtn]

/-- C4 witness: instantiated with the callback constantly true. -/
theorem c4_debounce_witness :
    (∀ b r, (fun (_ : Nat) (_ : Bool) => true) b r = true) ∧
    qnapListen (fun _ _ => true) 0
      [qnapUpPressed, qnapBothPressed, qnapDownPressed, qnapReleased] =
      [(1, false), (3, false), (3, true)] :=
  ⟨fun _ _ => rfl, c4_debounce (fun _ _ => true) (fun _ _ => rfl)⟩

/-- cmdDisplayStatus probe frame body of the asustor variants. -/
def cmdDisplayStatus : List Nat := [240, 1, 17, 1]

/-- cmdClearDisplay frame body of the asustor variants. -/
def cmdClearDisplay : List Nat := [240, 1, 18, 1]

/-- cmdRdy, the expected two-byte reply marker for a ready display. -/
def cmdRdy : List Nat := [241, 1]

/-- isReady of asustor.go: a bounded read of five bytes must return a full
frame, with no error, whose first bytes match cmdRdy; a timeout or error is
the none case. -/
def isReady (recv : Option (List Nat)) : Bool :=
  match recv with
  | none => false
  | some res => res.length == 5 && res.take 2 == cmdRdy

/-- Outcome of Open of asustor.go: the returned error if any, the frames
written to the serial port in order, the open flag afterwards, and whether
the serial channel was closed again before returning. -/
structure OpenOutcome where
  res : Option DisplayErr
  sent : List (List Nat)
  openAfter : Bool
  conClosed : Bool
deriving DecidableEq

/-- Open of asustor.go. wasOpen is the open flag at entry, serialOk tells
whether the serial port opens, flushOk gives the outcome of the k-th flush
and reads the bytes handed to the k-th bounded readiness read. The source
flushes the display-status probe, and on a failed readiness check flushes
clear-display, checks again, flushes display-status a second time, checks a
third time, and only then gives up, closing the channel. -/
def asustorOpen (wasOpen serialOk : Bool) (flushOk : Nat → Bool)
    (reads : Nat → Option (List Nat)) : OpenOutcome :=
  if wasOpen then ⟨none, [], true, false⟩
  else if serialOk = false then ⟨some .transport, [], false, false⟩
  else if flushOk 0 = false then ⟨some .transport, [makemsg cmdDisplayStatus], false, true⟩
  else if isReady (reads 0) then ⟨none, [makemsg cmdDisplayStatus], true, false⟩
  else if flushOk 1 = false then
    ⟨some .transport, [makemsg cmdDisplayStatus, makemsg cmdClearDisplay], false, true⟩
  else if isReady (reads 1) then
    ⟨none, [makemsg cmdDisplayStatus, makemsg cmdClearDisplay], true, false⟩
  else if flushOk 2 = false then
    ⟨some .transport,
      [makemsg cmdDisplayStatus, makemsg cmdClearDisplay, makemsg cmdDisplayStatus],
      false, true⟩
  else if isReady (reads 2) then
    ⟨none, [makemsg cmdDisplayStatus, makemsg cmdClearDisplay, makemsg cmdDisplayStatus],
      true, false⟩
  else
    ⟨some .errDisplayNotWorking,
      [makemsg cmdDisplayStatus, makemsg cmdClearDisplay, makemsg cmdDisplayStatus],
      false, true⟩

/-- C5: on a non-open session with a working serial port, Open sends the
display-status probe and succeeds at once if the readiness check passes;
otherwise it sends clear-display and checks again, then a second
display-status probe and checks a third time; when all three readiness
checks fail it closes the channel again and returns ErrDisplayNotWorking,
and whenever a check passes the session ends up marked open. -/
theorem c5_open_probe_sequence :
    ∀ reads : Nat → Option (List Nat),
    asustorOpen false true (fun _ => true) reads =
      if isReady (reads 0) then
        ⟨none, [makemsg cmdDisplayStatus], true, false⟩
      else if isReady (reads 1) then
        ⟨none, [makemsg cmdDisplayStatus, makemsg cmdClearDisplay], true, false⟩
      else if isReady (reads 2) then
        ⟨none,
          [makemsg cmdDisplayStatus, makemsg cmdClearDisplay, makemsg cmdDisplayStatus],
          true, false⟩
      else
        ⟨some .errDisplayNotWorking,
          [makemsg cmdDisplayStatus, makemsg cmdClearDisplay, makemsg cmdDisplayStatus],
          false, true⟩ := by
  intro reads
  unfold asustorOpen
  cases h0 : isReady (reads 0) <;> cases h1 : isReady (reads 1) <;>
    cases h2 : isReady (reads 2) <;> simp [h0, h1, h2]

/-- Write command marker of the qnap variant. -/
def qnapCmdWrite : List Nat := [77, 94, 1]

/-- Write of the qnap variant: refuses a closed session, otherwise builds
the outbound bytes from the write marker, the hex-decoded line header and
the normalized text, and reports ErrMsgSizeMismatch on a short write. The
hex header 4d0c0L10 decodes to 77, 12, L, 16 for the single-digit line
values the format string produces; no validation of the line value is
performed anywhere. -/
def qnapWrite (openNow writeOk : Bool) (line : Nat) (txt : List Nat) :
    Option DisplayErr × List Nat :=
  if openNow = false then (some .errClosed, [])
  else
    let cnt := qnapCmdWrite ++ [77, 12, line % 256, 16] ++ prepareTxt txt
    if writeOk = false then (some .errSizeMismatch, cnt) else (none, cnt)

/-- C8 counterexample: writing to line 2 is accepted by both variants with
no error even though 2 is neither line 0 nor line 1; the asustor frame
carries the raw byte 2 in its line position, and the qnap write succeeds. -/
theorem c8_counterexample :
    (strToBytes 2 []).getD 3 0 = 2 ∧
    ¬ ((2 : Nat) = 0 ∨ (2 : Nat) = 1) ∧
    (qnapWrite true true 2 []).1 = none := by
  refine ⟨by decide, by decide, by decide⟩

/-- C8 amended: no range validation of the line argument exists; for every
integer line value both asustor variants embed the low byte of the line,
its value modulo 256, at position 3 of the frame, and the qnap write
accepts every single-digit line value without error. -/
theorem c8_no_line_validation (line : Int) (txt : List Nat) (n : Nat) (_h : n < 10) :
    (strToBytes line txt).getD 3 0 = (line % 256).toNat ∧
    (strToBytesM line txt).getD 3 0 = (line % 256).toNat ∧
    (qnapWrite true true n txt).1 = none := by
  refine ⟨?_, ?_, ?_⟩
  · simp [strToBytes]
  · simp [strToBytesM, createMsg]
  · simp [qnapWrite]

/-- C8 amended witness: instantiated at line 2. -/
theorem c8_no_line_validation_witness :
    (2 : Nat) < 10 ∧
    ((strToBytes 2 []).getD 3 0 = ((2 : Int) % 256).toNat ∧
      (strToBytesM 2 []).getD 3 0 = ((2 : Int) % 256).toNat ∧
      (qnapWrite true true 2 []).1 = none) :=
  ⟨by decide, c8_no_line_validation 2 [] 2 (by decide)⟩

/-- Outcome of Close or forceClose: the returned error, the open flag
afterwards, the frames pushed onto the ack channel and onto the button
channel by the call, and whether the serial channel was closed. -/
structure CloseOutcome where
  res : Option DisplayErr
  openAfter : Bool
  readPush : List (List Nat)
  btnPush : List (List Nat)
  conClosed : Bool
deriving DecidableEq

/-- forceClose of the mutex-guarded variant: clears the open flag, pushes
one empty sentinel frame onto each of the ack and button channels, and
closes the serial channel. -/
def forceCloseM : CloseOutcome :=
  ⟨none, false, [[]], [[]], true⟩

/-- Close of the mutex-guarded variant: a no-op returning nil when the
session is not open, otherwise forceClose. -/
def closeM (opened : Bool) : CloseOutcome :=
  if opened = false then ⟨none, false, [], [], false⟩ else forceCloseM

/-- forceClose of asustor.go: clears the open flag and closes the serial
channel when one exists; nothing is pushed onto either channel. -/
def forceCloseS (conNil : Bool) : CloseOutcome :=
  if conNil then ⟨none, false, [], [], false⟩ else ⟨none, false, [], [], true⟩

/-- Close of asustor.go: a no-op returning nil when the session is not
open, otherwise forceClose. -/
def closeS (opened conNil : Bool) : CloseOutcome :=
  if opened = false then ⟨none, false, [], [], false⟩ else forceCloseS conNil

/-- C7 counterexample: in asustor.go, forceClose on an open session pushes
nothing onto the button or ack channels, so a thread blocked receiving on
either channel is never signalled; and a Write of that variant whose
acknowledgment check runs after closure returns ErrDisplayNotWorking, not
ErrClosed. -/
theorem c7_counterexample :
    (closeS true false).btnPush = [] ∧
    (closeS true false).readPush = [] ∧
    simpleWrite true true false none = ⟨some DisplayErr.errDisplayNotWorking, 1⟩ ∧
    some DisplayErr.errDisplayNotWorking ≠ some DisplayErr.errClosed := by
  refine ⟨by decide, by decide, by decide, by decide⟩

/-- C7 amended: Close is idempotent in both variants, a second Close being
a no-op returning nil. In the mutex-guarded variant forceClose pushes one
empty sentinel frame onto each channel, a Listen that receives a frame
after the open flag is down returns without invoking the callback, and an
in-flight write whose acknowledgment check fails once and whose next
iteration observes the closed session returns ErrClosed after that single
attempt, provided its retry counter had not already passed the bound. In
the simple asustor.go variant forceClose pushes no sentinel onto either
channel, so blocked consumers are not signalled. -/
theorem c7_close_semantics (r : Nat) (hr : r ≤ 10) :
    (∀ o : Bool, closeM (closeM o).openAfter = ⟨none, false, [], [], false⟩) ∧
    (∀ o c : Bool, closeS (closeS o c).openAfter c = ⟨none, false, [], [], false⟩) ∧
    closeM true = ⟨none, false, [[]], [[]], true⟩ ∧
    (∀ cb : Nat → Bool → Bool, asustorListen cb [([], false)] = []) ∧
    writeGo (fun k => k == 0) (fun _ => true) (fun _ => false) 0 r =
      (some DisplayErr.errClosed, (r + 1) % 256, 1) ∧
    closeS true false = ⟨none, false, [], [], true⟩ := by
  refine ⟨?_, ?_, by decide, ?_, ?_, by decide⟩
  · intro o
    cases o <;> simp [closeM, forceCloseM]
  · intro o c
    cases o <;> cases c <;> simp [closeS, forceCloseS]
  · intro cb
    simp [asustorListen]
  · have hnr : ¬ r > 10 := by omega
    rw [writeGo.eq_def]
    simp only [Nat.zero_eq, beq_self_eq_true, Bool.true_eq_false, if_false, ite_false,
      ite_true, if_neg, hnr]
    rw [writeGo.eq_def]
    simp [hnr]

/-- C7 amended witness: instantiated with retry counter 0. -/
theorem c7_close_semantics_witness :
    (0 : Nat) ≤ 10 ∧
    ((∀ o : Bool, closeM (closeM o).openAfter = ⟨none, false, [], [], false⟩) ∧
    (∀ o c : Bool, closeS (closeS o c).openAfter c = ⟨none, false, [], [], false⟩) ∧
    closeM true = ⟨none, false, [[]], [[]], true⟩ ∧
    (∀ cb : Nat → Bool → Bool, asustorListen cb [([], false)] = []) ∧
    writeGo (fun k => k == 0) (fun _ => true) (fun _ => false) 0 0 =
      (some DisplayErr.errClosed, (0 + 1) % 256, 1) ∧
    closeS true false = ⟨none, false, [], [], true⟩) :=
  ⟨by decide, c7_close_semantics 0 (by decide)⟩

end Display
